import Mathlib

/-!
# Device telemetry reconciliation: `models.go` and `process.go`

A shallow embedding of the Go program.  The record type, `Translate`, the
null-handling helpers, `Position.UnmarshalJSON`, the three store operations
and the body of `main` are translated from the source.  The pieces of the Go
standard library that decide the behaviour (`time.Parse`, `Time.Before`,
`Time.Format`, `Rows.Scan`) are modelled next to them; `strconv.ParseFloat` and
what the database server and its driver do with a timestamp are taken as
parameters.
-/

namespace Models

/-! ## Go's `time` package, as far as the program uses it -/

/-- A `time.Time` value: the civil fields it shows in its own zone, and that
zone's offset in seconds east of UTC. -/
structure Time where
  year : Nat
  month : Nat
  day : Nat
  hour : Nat
  min : Nat
  sec : Nat
  nsec : Nat
  offset : Int
deriving DecidableEq, Repr

/-- The zero value `time.Time{}`: January 1, year 1, 00:00:00 UTC.  It is what
`time.Parse` returns next to an error. -/
def Time.zero : Time :=
  { year := 1, month := 1, day := 1, hour := 0, min := 0, sec := 0, nsec := 0, offset := 0 }

def isLeap (year : Nat) : Bool :=
  year % 4 == 0 && (year % 100 != 0 || year % 400 == 0)

/-- Days of the month `m` (1..12) in `year`; 0 for a number that is no month. -/
def daysIn (m year : Nat) : Nat :=
  match m with
  | 1 => 31
  | 2 => if isLeap year then 29 else 28
  | 3 => 31
  | 4 => 30
  | 5 => 31
  | 6 => 30
  | 7 => 31
  | 8 => 31
  | 9 => 30
  | 10 => 31
  | 11 => 30
  | 12 => 31
  | _ => 0

/-- Days of the year before the first of month `m`, leap day not counted. -/
def daysBefore (m : Nat) : Nat :=
  match m with
  | 1 => 0
  | 2 => 31
  | 3 => 59
  | 4 => 90
  | 5 => 120
  | 6 => 151
  | 7 => 181
  | 8 => 212
  | 9 => 243
  | 10 => 273
  | 11 => 304
  | 12 => 334
  | _ => 365

/-- Days from January 1 of year 0 to January 1 of `year` (proleptic Gregorian
calendar; year 0 is a leap year). -/
def daysBeforeYear (year : Nat) : Nat :=
  365 * year + (year + 3) / 4 - (year + 99) / 100 + (year + 399) / 400

/-- Day number of a civil date, counted from January 1 of year 0. -/
def dayNumber (year month day : Nat) : Nat :=
  daysBeforeYear year + daysBefore month
    + (if 2 < month && isLeap year then 1 else 0) + (day - 1)

/-- Seconds from 0000-01-01T00:00:00Z to the instant the value denotes. -/
def Time.abs (t : Time) : Int :=
  (dayNumber t.year t.month t.day : Int) * 86400
    + (t.hour : Int) * 3600 + (t.min : Int) * 60 + (t.sec : Int) - t.offset

/-- The method `t.Before(u)`: the instant of `t` is strictly earlier. -/
def Time.Before (t u : Time) : Bool :=
  decide (t.abs < u.abs) || (decide (t.abs = u.abs) && decide (t.nsec < u.nsec))

/-- The two layouts the program parses with. -/
inductive Layout where
  | DateTime
  | RFC3339
deriving DecidableEq, Repr

def isDigit (c : Char) : Bool :=
  decide ('0'.toNat ≤ c.toNat) && decide (c.toNat ≤ '9'.toNat)

def digitVal (c : Char) : Nat :=
  c.toNat - '0'.toNat

/-- The helper `getnum` of `time`: one or two leading digits, exactly two when
`fixed`. -/
def getnum (s : List Char) (fixed : Bool) : Option (Nat × List Char) :=
  match s with
  | [] => none
  | [c0] =>
    if isDigit c0 then (if fixed then none else some (digitVal c0, [])) else none
  | c0 :: c1 :: rest =>
    if isDigit c0 then
      if isDigit c1 then some (digitVal c0 * 10 + digitVal c1, rest)
      else if fixed then none else some (digitVal c0, c1 :: rest)
    else none

/-- The four-digit year of the layout element `2006`. -/
def getYear (s : List Char) : Option (Nat × List Char) :=
  match s with
  | c0 :: c1 :: c2 :: c3 :: rest =>
    if isDigit c0 && isDigit c1 && isDigit c2 && isDigit c3 then
      some (digitVal c0 * 1000 + digitVal c1 * 100 + digitVal c2 * 10 + digitVal c3, rest)
    else none
  | _ => none

/-- One literal character of the layout that is not a blank. -/
def skipChar (c : Char) (s : List Char) : Option (List Char) :=
  match s with
  | [] => none
  | d :: rest => if d = c then some rest else none

/-- The helper `skip` at a blank of the layout: the value, when it has text left,
must show a blank there, and every blank that follows is dropped with it. -/
def skipSpace (s : List Char) : Option (List Char) :=
  match s with
  | [] => some []
  | d :: rest => if d = ' ' then some (rest.dropWhile (fun c => c == ' ')) else none

/-- The separator between date and time: `T` in RFC 3339, a blank in DateTime. -/
def skipDateSep (l : Layout) (s : List Char) : Option (List Char) :=
  match l with
  | Layout.DateTime => skipSpace s
  | Layout.RFC3339 => skipChar 'T' s

/-- The helper `parseNanoseconds` on the digits that follow the separator: at
most nine of them count, scaled to nanoseconds. -/
def parseNanoseconds (digits : List Char) : Nat :=
  let ds := digits.take 9
  (ds.foldl (fun acc c => acc * 10 + digitVal c) 0) * 10 ^ (9 - ds.length)

/-- A fractional second met in the value although the layout has none: a period
or comma followed by a digit starts it, and it takes every digit that follows. -/
def getFraction (s : List Char) : Nat × List Char :=
  match s with
  | p :: d :: rest =>
    if (p = '.' ∨ p = ',') ∧ isDigit d = true then
      (parseNanoseconds (d :: rest.takeWhile isDigit), rest.dropWhile isDigit)
    else (0, s)
  | _ => (0, s)

/-- The layout element `Z07:00`: `Z`, or a sign, two digits, a colon and two
digits, the hours at most 24 and the minutes at most 60.  The result is the
offset in seconds east of UTC. -/
def getZone (s : List Char) : Option (Int × List Char) :=
  match s with
  | 'Z' :: rest => some (0, rest)
  | sg :: h0 :: h1 :: c :: m0 :: m1 :: rest =>
    if c = ':' then
      match getnum [h0, h1] true, getnum [m0, m1] true with
      | some (hr, _), some (mm, _) =>
        if 24 < hr ∨ 60 < mm then none
        else if sg = '+' then some (((hr * 60 + mm) * 60 : Nat), rest)
        else if sg = '-' then some (-(((hr * 60 + mm) * 60 : Nat) : Int), rest)
        else none
      | _, _ => none
    else none
  | _ => none

/-- The zone part of the layout: none in DateTime (the time is taken as UTC). -/
def getLayoutZone (l : Layout) (s : List Char) : Option (Int × List Char) :=
  match l with
  | Layout.DateTime => some (0, s)
  | Layout.RFC3339 => getZone s

/-- The elements `2006-01-02`, which open both layouts: year, month and day.
The day is checked against the month once the whole value is read. -/
def parseDate (s : List Char) : Option ((Nat × Nat × Nat) × List Char) := do
  let (year, s) ← getYear s
  let s ← skipChar '-' s
  let (month, s) ← getnum s true
  if month = 0 ∨ 12 < month then none
  let s ← skipChar '-' s
  let (day, s) ← getnum s true
  some ((year, month, day), s)

/-- The elements `15:04:05` of both layouts, and a fractional second when the
value has one: hour, minute, second and nanoseconds. -/
def parseClock (s : List Char) : Option ((Nat × Nat × Nat × Nat) × List Char) := do
  let (hour, s) ← getnum s false
  if 24 ≤ hour then none
  let s ← skipChar ':' s
  let (min, s) ← getnum s true
  if 60 ≤ min then none
  let s ← skipChar ':' s
  let (sec, s) ← getnum s true
  if 60 ≤ sec then none
  let (nsec, s) := getFraction s
  some ((hour, min, sec, nsec), s)

/-- The function `time.Parse(layout, value)` for the layouts `time.DateTime`
(`2006-01-02 15:04:05`) and `time.RFC3339` (`2006-01-02T15:04:05Z07:00`);
`none` stands for a returned error. -/
def parseChars (l : Layout) (s : List Char) : Option Time := do
  let ((year, month, day), s) ← parseDate s
  let s ← skipDateSep l s
  let ((hour, min, sec, nsec), s) ← parseClock s
  let (offset, s) ← getLayoutZone l s
  if s ≠ [] then none
  if day < 1 ∨ daysIn month year < day then none
  some { year := year, month := month, day := day, hour := hour, min := min,
         sec := sec, nsec := nsec, offset := offset }

def parseTime (l : Layout) (value : String) : Option Time :=
  parseChars l value.data

/-- The last `width` decimal digits of `n`, zeros in front included. -/
def padDigits (width n : Nat) : List Char :=
  match width with
  | 0 => []
  | w + 1 => padDigits w (n / 10) ++ [Char.ofNat ('0'.toNat + n % 10)]

/-- The helper `appendInt` of `time`: the decimal digits of `n`, with zeros in
front up to `width` digits; a number with more digits shows them all. -/
def appendInt (width n : Nat) : List Char :=
  if n < 10 ^ width then padDigits width n else Nat.toDigits 10 n

/-- The method `t.Format(time.DateTime)`. -/
def formatDateTime (t : Time) : String :=
  String.mk (appendInt 4 t.year ++ ['-'] ++ appendInt 2 t.month ++ ['-'] ++ appendInt 2 t.day
    ++ [' '] ++ appendInt 2 t.hour ++ [':'] ++ appendInt 2 t.min ++ [':'] ++ appendInt 2 t.sec)

/-! ## The data model of `models.go` -/

/-- A Go `float64`, by the exact value of a finite number.  The program copies
these values and compares them with zero; it does no arithmetic on them. -/
abbrev Float64 := ℚ

/-- A non-nil `*string`: the address it holds and the string stored there.
Go's `==` on two pointers compares the addresses. -/
structure StrPtr where
  addr : Nat
  val : String
deriving DecidableEq, Repr

structure Position where
  Lat : Float64
  Long : Float64
deriving DecidableEq, Repr

/-- The struct `DeviceData`.  A pointer field is `none` when nil.  `Heading`,
`Speed` and `Position` are only tested for nil and read, so they carry the value
pointed to; `Generated` is also compared as a pointer, so it keeps its address. -/
structure DeviceData where
  Device : String
  Generated : Option StrPtr
  Heading : Option Int
  Position : Option Position
  Speed : Option Float64
deriving DecidableEq, Repr

/-- The comparison `p == q` of two `*string`: both nil, or the same address. -/
def ptrEq (p q : Option StrPtr) : Bool :=
  match p, q with
  | none, none => true
  | some a, some b => a.addr == b.addr
  | _, _ => false

/-- Two pointers that hold one address point to one string. -/
def Coherent (p q : StrPtr) : Prop :=
  p.addr = q.addr → p.val = q.val

/-! ## `Translate` -/

/-- The function `Translate(oldData, newData)`.  `none` is the run-time panic of
dereferencing a nil `Generated`; `odt` is the address of the local variable `odt`
whose address the corrected record takes. -/
def Translate (odt : Nat) (oldData newData : DeviceData) : Option DeviceData :=
  match newData.Generated with
  | none => none
  | some ng =>
    let newDataTime := (parseTime Layout.DateTime ng.val).getD Time.zero
    match oldData.Generated with
    | none => none
    | some og =>
      let oldDataTime := (parseTime Layout.RFC3339 og.val).getD Time.zero
      if ptrEq oldData.Generated newData.Generated then some newData
      else
        let newData :=
          if newData.Heading.isNone && oldData.Heading.isSome then
            { newData with Heading := oldData.Heading }
          else if newData.Heading.isSome && oldData.Heading.isSome
              && newDataTime.Before oldDataTime then
            { newData with Heading := oldData.Heading }
          else newData
        let newData :=
          if newData.Speed.isNone && oldData.Speed.isSome then
            { newData with Speed := oldData.Speed }
          else if newData.Speed.isSome && oldData.Speed.isSome
              && newDataTime.Before oldDataTime then
            { newData with Speed := oldData.Speed }
          else newData
        let newData :=
          if newData.Position.isNone && oldData.Position.isSome then
            { newData with
              Position := oldData.Position.map (fun op => { Lat := op.Lat, Long := op.Long }) }
          else if newData.Position.isSome && oldData.Position.isSome
              && newDataTime.Before oldDataTime then
            { newData with Position := oldData.Position }
          else newData
        let newData :=
          if newDataTime.Before oldDataTime then
            { newData with Generated := some { addr := odt, val := formatDateTime oldDataTime } }
          else newData
        some newData

/-- The time `Translate` takes for the incoming record: the parsed wire-format
text, or the zero time when it does not parse. -/
def newTime (ng : StrPtr) : Time :=
  (parseTime Layout.DateTime ng.val).getD Time.zero

/-- The time `Translate` takes for the existing record: the parsed RFC 3339
text, or the zero time when it does not parse. -/
def oldTime (og : StrPtr) : Time :=
  (parseTime Layout.RFC3339 og.val).getD Time.zero

/-! ## The store: the table `device_events` and the three statements -/

/-- The type `sql.NullInt64`. -/
structure NullInt64 where
  Int64 : Int
  Valid : Bool
deriving DecidableEq, Repr

/-- The type `sql.NullFloat64`. -/
structure NullFloat64 where
  Float64 : Models.Float64
  Valid : Bool
deriving DecidableEq, Repr

def handleNilInt64 (i : Option Int) : NullInt64 :=
  match i with
  | none => { Int64 := 0, Valid := false }
  | some v => { Int64 := v, Valid := true }

def handleNilFloat64 (f : Option Float64) : NullFloat64 :=
  match f with
  | none => { Float64 := 0, Valid := false }
  | some v => { Float64 := v, Valid := true }

def handleNilPositionFloat64 (dd : DeviceData) : NullFloat64 × NullFloat64 :=
  match dd.Position with
  | none => ({ Float64 := 0, Valid := false }, { Float64 := 0, Valid := false })
  | some po => ({ Float64 := po.Lat, Valid := true }, { Float64 := po.Long, Valid := true })

/-- The column value a `sql.NullInt64` parameter stores: NULL unless valid. -/
def NullInt64.column (n : NullInt64) : Option Int :=
  if n.Valid then some n.Int64 else none

/-- The column value a `sql.NullFloat64` parameter stores: NULL unless valid. -/
def NullFloat64.column (n : NullFloat64) : Option Models.Float64 :=
  if n.Valid then some n.Float64 else none

/-- A value of the column `generatedts`, by the microseconds the server counts
for it; the server orders timestamps by that count. -/
structure Timestamp where
  micros : Int
deriving DecidableEq, Repr

/-- One row of `device_events`; `none` is SQL NULL. -/
structure Row where
  device : String
  generatedts : Option Timestamp
  speed : Option Float64
  heading : Option Int
  latitude : Option Float64
  longitude : Option Float64
deriving DecidableEq, Repr

/-- The table contents. -/
abbrev Store := List Row

/-- How the query of `GetData` ends: with `sql.ErrNoRows`, with a row for `Scan`,
or with any other error. -/
inductive QueryOutcome where
  | noRows
  | row (r : Row)
  | failed
deriving DecidableEq, Repr

/-- What the source leaves to the database server and the driver.  `timestamp` is
the server's reading of a text parameter as a `timestamp`, `none` when it refuses
the text.  `scanText` is the text `Scan` stores in a `*string` for a timestamp.
`pasted` is what the server makes of the query text of `GetData` when the device
text pasted into it is not plain: the outcome, and the table afterwards. -/
structure Server where
  timestamp : String → Option Timestamp
  scanText : Timestamp → String
  pasted : String → Store → QueryOutcome × Store

/-- A text that reads as itself between the quotes of a string constant: it has
no quote, no backslash and no zero character. -/
def plainText (s : String) : Bool :=
  s.data.all (fun c => c != Char.ofNat 39 && c != Char.ofNat 92 && c != Char.ofNat 0)

/-- A text the server takes as a value of type `text`: it has no zero
character. -/
def storableText (s : String) : Bool :=
  s.data.all (fun c => c != Char.ofNat 0)

/-- A heading the column type `integer` of `createTable` can hold: NULL, or a
number of 32 bits. -/
def fitsInteger (h : Option Int) : Bool :=
  match h with
  | none => true
  | some v => decide (-2147483648 ≤ v) && decide (v ≤ 2147483647)

/-- The method `AddEvent`: one `INSERT` of the six values.  A statement the server
refuses (a device text or heading it cannot store, a timestamp text it cannot
read) is logged and leaves the table as it was. -/
def AddEvent (server : Server) (store : Store) (dd : DeviceData) : Store :=
  let (floatLat, floatLong) := handleNilPositionFloat64 dd
  let heading := (handleNilInt64 dd.Heading).column
  if storableText dd.Device && fitsInteger heading then
    match dd.Generated with
    | none =>
      store ++ [{ device := dd.Device,
                  generatedts := none,
                  speed := (handleNilFloat64 dd.Speed).column,
                  heading := heading,
                  latitude := floatLat.column,
                  longitude := floatLong.column }]
    | some g =>
      match server.timestamp g.val with
      | none => store
      | some ts =>
        store ++ [{ device := dd.Device,
                    generatedts := some ts,
                    speed := (handleNilFloat64 dd.Speed).column,
                    heading := heading,
                    latitude := floatLat.column,
                    longitude := floatLong.column }]
  else store

/-- The method `UpdateState`: `UPDATE ... SET speed, heading, latitude, longitude
WHERE device = $1`.  A statement the server refuses (a device text or heading it
cannot store) is logged and leaves the table as it was. -/
def UpdateState (store : Store) (dd : DeviceData) : Store :=
  let (floatLat, floatLong) := handleNilPositionFloat64 dd
  let heading := (handleNilInt64 dd.Heading).column
  if storableText dd.Device && fitsInteger heading then
    store.map (fun r =>
      if r.device = dd.Device then
        { r with speed := (handleNilFloat64 dd.Speed).column,
                 heading := heading,
                 latitude := floatLat.column,
                 longitude := floatLong.column }
      else r)
  else store

/-- The order of `ORDER BY generatedts desc`: `a` sorts strictly ahead of `b`.
NULL sorts ahead of every timestamp. -/
def sortsAhead (a b : Option Timestamp) : Bool :=
  match a, b with
  | none, some _ => true
  | some x, some y => decide (y.micros < x.micros)
  | _, none => false

/-- One step of the query below: the row kept so far, or the next one when it
sorts strictly ahead. -/
def pickLatest (best : Option Row) (r : Row) : Option Row :=
  match best with
  | none => some r
  | some b => if sortsAhead r.generatedts b.generatedts then some r else some b

/-- The rows `WHERE device = d ORDER BY generatedts desc LIMIT 1` selects: the
first in that order of the rows of the device, if there is one; among rows that
tie, the first of the table. -/
def latestRow (store : Store) (device : String) : Option Row :=
  (store.filter (fun r => r.device = device)).foldl pickLatest none

/-- The call `ds.DB.QueryRow(stmt)` of `GetData`, whose text has the device pasted
between quotes: the outcome, and the table afterwards.  With a plain device text
the statement is the query for the latest row of the device; with any other text
the server decides what the statement is. -/
def QueryRow (server : Server) (store : Store) (device : String) : QueryOutcome × Store :=
  if plainText device then
    match latestRow store device with
    | none => (QueryOutcome.noRows, store)
    | some r => (QueryOutcome.row r, store)
  else server.pasted device store

/-- What `row.Scan` leaves in the plain `float64` variables `lat` and `long`:
columns are assigned in order, and a NULL met by one of the two is an error that
ends the scan with that variable and the later one still zero. -/
def scanLatLong (row : Row) : Float64 × Float64 :=
  match row.latitude with
  | none => (0, 0)
  | some lat =>
    match row.longitude with
    | none => (lat, 0)
    | some long => (lat, long)

/-- The method `GetData`: the record, the flag `newEntry` and the table after the
call.  `scanAddr` is the address of the string `Scan` allocates for `Generated`.
An error other than `sql.ErrNoRows` falls through the `switch`, and the record
returned holds what `Scan` had assigned by then. -/
def GetData (server : Server) (scanAddr : Nat) (store : Store)
    (deviceData : DeviceData) : DeviceData × Bool × Store :=
  match QueryRow server store deviceData.Device with
  | (QueryOutcome.noRows, store) => (deviceData, true, AddEvent server store deviceData)
  | (QueryOutcome.failed, store) =>
    ({ Device := "", Generated := none, Heading := none, Position := none, Speed := none },
      false, store)
  | (QueryOutcome.row row, store) =>
    let dd : DeviceData :=
      { Device := row.device,
        Generated := row.generatedts.map
          (fun t => { addr := scanAddr, val := server.scanText t }),
        Heading := row.heading,
        Position := some { Lat := 0, Long := 0 },
        Speed := row.speed }
    let (lat, long) := scanLatLong row
    if lat = 0 ∧ long = 0 then ({ dd with Position := none }, false, store)
    else ({ dd with Position := some { Lat := lat, Long := long } }, false, store)

/-! ## `main`, from the lookup on -/

/-- How a run ends: the record printed (its `Generated` cleared) and the table
left behind, or a panic and the table at that moment. -/
inductive Outcome where
  | printed (store : Store) (out : DeviceData)
  | panicked (store : Store)
deriving DecidableEq, Repr

/-- The body of `main` once the argument is decoded into `incomingData`. -/
def main (server : Server) (scanAddr odt : Nat) (store : Store)
    (incomingData : DeviceData) : Outcome :=
  let (existingData, newEntry, store) := GetData server scanAddr store incomingData
  if newEntry then
    Outcome.printed store { existingData with Generated := none }
  else
    match Translate odt existingData incomingData with
    | none => Outcome.panicked store
    | some translatedData =>
      Outcome.printed (UpdateState store translatedData)
        { translatedData with Generated := none }

/-! ## `Position.UnmarshalJSON` -/

/-- A value of type `any` as `json.Unmarshal` leaves it: `null` is the nil
interface, also of a key the object does not have. -/
inductive JsonAny where
  | null
  | bool (b : Bool)
  | number (f : Float64)
  | string (s : String)
  | array
  | object
deriving DecidableEq, Repr

/-- The local struct `temp` after `json.Unmarshal(b, &temp)`. -/
structure PositionTemp where
  Lat : JsonAny
  Long : JsonAny
deriving DecidableEq, Repr

/-- How `UnmarshalJSON` ends: the position written to the receiver, the error
of `json.Unmarshal` handed on, or a panic. -/
inductive Decoded where
  | ok (po : Position)
  | error
  | panic
deriving DecidableEq, Repr

/-- The method `(*Position).UnmarshalJSON`, from the result of `json.Unmarshal`
on (`none` is its error).  `ParseFloat` is `strconv.ParseFloat(s, 64)`: the value
it returns, and whether it returned no error; the value is used either way. -/
def UnmarshalJSON (ParseFloat : String → Float64 × Bool) (temp : Option PositionTemp) :
    Decoded :=
  match temp with
  | none => Decoded.error
  | some temp =>
    match temp.Lat with
    | JsonAny.string sLat =>
      match temp.Long with
      | JsonAny.string sLong => Decoded.ok { Lat := (ParseFloat sLat).1, Long := (ParseFloat sLong).1 }
      | _ => Decoded.panic
    | JsonAny.number fLat =>
      match temp.Long with
      | JsonAny.number fLong => Decoded.ok { Lat := fLat, Long := fLong }
      | _ => Decoded.panic
    | _ => Decoded.ok { Lat := 0, Long := 0 }

/-! ## Definitions used to state the results -/

/-- The choice `Translate` makes for one optional field: the existing value when
the incoming record has none, or when both have one and the incoming record is
older; the incoming value otherwise. -/
def mergeField {α : Type} (before : Bool) (old new : Option α) : Option α :=
  if new.isNone && old.isSome then old
  else if new.isSome && old.isSome && before then old
  else new

/-- The row `AddEvent` appends for a record, with `ts` what the server read from
the text of `Generated`. -/
def rowOf (ts : Option Timestamp) (dd : DeviceData) : Row :=
  { device := dd.Device,
    generatedts := ts,
    speed := dd.Speed,
    heading := dd.Heading,
    latitude := dd.Position.map (fun po => po.Lat),
    longitude := dd.Position.map (fun po => po.Long) }

/-- The server executes the `INSERT` of `AddEvent` for the record: it can store the
device text and the heading, and reads the text of `Generated`, when there is
one, as a timestamp. -/
def Insertable (server : Server) (dd : DeviceData) : Prop :=
  storableText dd.Device = true ∧ fitsInteger dd.Heading = true
    ∧ ∀ g, dd.Generated = some g → (server.timestamp g.val).isSome = true

/-- The fields are a calendar date with a four-digit year and a time of day. -/
def Time.Valid (t : Time) : Prop :=
  t.year < 10000 ∧ 1 ≤ t.month ∧ t.month ≤ 12 ∧ 1 ≤ t.day ∧ t.day ≤ daysIn t.month t.year
    ∧ t.hour < 24 ∧ t.min < 60 ∧ t.sec < 60

/-! ## Facts about the parser -/

/-- A value that parses has, after its date, a separator and then a clock. -/
theorem parseChars_sep (l : Layout) (s : List Char) (t : Time)
    (h : parseChars l s = some t) :
    ∃ d s1 s2 c, parseDate s = some (d, s1) ∧ skipDateSep l s1 = some s2
      ∧ parseClock s2 = some c := by
  unfold parseChars at h
  cases hd : parseDate s with
  | none => simp [hd] at h
  | some p =>
    obtain ⟨d, s1⟩ := p
    cases hs : skipDateSep l s1 with
    | none => simp [hd, hs] at h
    | some s2 =>
      cases hc : parseClock s2 with
      | none => simp [hd, hs, hc] at h
      | some c => exact ⟨d, s1, s2, c, rfl, hs, hc⟩

/-- No text parses under both layouts: where the date ends, DateTime wants a
blank and RFC 3339 a `T`. -/
theorem parseChars_layouts_disjoint (s : List Char) (t u : Time)
    (h1 : parseChars Layout.DateTime s = some t)
    (h2 : parseChars Layout.RFC3339 s = some u) : False := by
  obtain ⟨d, s1, s2, c, hd, hs, hc⟩ := parseChars_sep _ _ _ h1
  obtain ⟨d', s1', s2', c', hd', hs', _⟩ := parseChars_sep _ _ _ h2
  rw [hd] at hd'
  cases hd'
  cases s1 with
  | nil => simp [skipDateSep, skipChar] at hs'
  | cons x xs =>
    simp only [skipDateSep, skipSpace, skipChar] at hs hs'
    by_cases hx : x = ' '
    · subst hx
      simp at hs'
    · simp [hx] at hs

theorem parseTime_layouts_disjoint (v : String) (t u : Time)
    (h1 : parseTime Layout.DateTime v = some t)
    (h2 : parseTime Layout.RFC3339 v = some u) : False :=
  parseChars_layouts_disjoint v.data t u h1 h2

/-! ## Formatting and reading back -/

theorem digit_char (d : Nat) (h : d < 10) :
    isDigit (Char.ofNat ('0'.toNat + d)) = true
      ∧ digitVal (Char.ofNat ('0'.toNat + d)) = d := by
  interval_cases d <;> decide

theorem digitVal_le (c : Char) (h : isDigit c = true) : digitVal c ≤ 9 := by
  simp only [isDigit, Bool.and_eq_true, decide_eq_true_eq] at h
  have h9 : '9'.toNat = 57 := by decide
  have h0 : '0'.toNat = 48 := by decide
  simp only [digitVal]
  omega

theorem getnum_padDigits (n : Nat) (h : n < 100) (rest : List Char) (fixed : Bool) :
    getnum (padDigits 2 n ++ rest) fixed = some (n, rest) := by
  have h1 := digit_char (n / 10 % 10) (Nat.mod_lt _ (by decide))
  have h2 := digit_char (n % 10) (Nat.mod_lt _ (by decide))
  simp only [padDigits, List.nil_append, List.cons_append, getnum, h1.1, h2.1, if_true,
    h1.2, h2.2]
  congr 2
  omega

theorem getYear_padDigits (n : Nat) (h : n < 10000) (rest : List Char) :
    getYear (padDigits 4 n ++ rest) = some (n, rest) := by
  have h1 := digit_char (n / 10 / 10 / 10 % 10) (Nat.mod_lt _ (by decide))
  have h2 := digit_char (n / 10 / 10 % 10) (Nat.mod_lt _ (by decide))
  have h3 := digit_char (n / 10 % 10) (Nat.mod_lt _ (by decide))
  have h4 := digit_char (n % 10) (Nat.mod_lt _ (by decide))
  simp only [padDigits, List.nil_append, List.cons_append, getYear, h1.1, h2.1, h3.1, h4.1,
    Bool.and_self, if_true, h1.2, h2.2, h3.2, h4.2]
  congr 2
  omega

theorem getYear_lt (s : List Char) (y : Nat) (r : List Char)
    (h : getYear s = some (y, r)) : y < 10000 := by
  unfold getYear at h
  split at h
  · split at h
    · rename_i hd
      simp only [Bool.and_eq_true] at hd
      obtain ⟨⟨⟨h0, h1⟩, h2⟩, h3⟩ := hd
      have := digitVal_le _ h0
      have := digitVal_le _ h1
      have := digitVal_le _ h2
      have := digitVal_le _ h3
      simp only [Option.some.injEq, Prod.mk.injEq] at h
      omega
    · simp at h
  · simp at h

theorem getnum_lt (s : List Char) (fixed : Bool) (n : Nat) (r : List Char)
    (h : getnum s fixed = some (n, r)) : n < 100 := by
  unfold getnum at h
  split at h
  · simp at h
  · split at h
    · rename_i h0
      have := digitVal_le _ h0
      split at h
      · simp at h
      · simp only [Option.some.injEq, Prod.mk.injEq] at h
        omega
    · simp at h
  · split at h
    · rename_i h0
      have := digitVal_le _ h0
      split at h
      · rename_i h1
        have := digitVal_le _ h1
        simp only [Option.some.injEq, Prod.mk.injEq] at h
        omega
      · split at h
        · simp at h
        · simp only [Option.some.injEq, Prod.mk.injEq] at h
          omega
    · simp at h

/-- Every value `time.Parse` returns has valid fields. -/
theorem parseChars_valid (l : Layout) (s : List Char) (t : Time)
    (h : parseChars l s = some t) : t.Valid := by
  simp [parseChars, Option.bind_eq_some] at h
  obtain ⟨y, m, d, s1, hd, s2, _, hr, mi, se, ns, s3, hc, off, s4, _, _, hday, h⟩ := h
  simp [parseDate, Option.bind_eq_some] at hd
  obtain ⟨y', r0, hy, _, _, m', _, _, hm, _, _, _, _, hy', hm', _⟩ := hd
  simp [parseClock, Option.bind_eq_some] at hc
  obtain ⟨_, _, _, hhr, _, _, _, _, _, hmi, _, _, _, _, _, hse, heq, _⟩ := hc
  have hylt := getYear_lt _ _ _ hy
  obtain ⟨e1, e2, e3, _⟩ := heq
  subst e1 e2 e3 hy' hm' h
  simp only [Time.Valid]
  omega

theorem skipChar_cons (c : Char) (rest : List Char) : skipChar c (c :: rest) = some rest := by
  simp [skipChar]

theorem dropWhile_blank_padDigits (n : Nat) (rest : List Char) :
    (padDigits 2 n ++ rest).dropWhile (fun c => c == ' ') = padDigits 2 n ++ rest := by
  have h : ∀ d, d < 10 → (Char.ofNat ('0'.toNat + d) == ' ') = false := by
    intro d hd
    interval_cases d <;> decide
  have h1 := h (n / 10 % 10) (Nat.mod_lt _ (by decide))
  simp only [padDigits, List.nil_append, List.cons_append, List.dropWhile, h1]
  rfl

theorem parseDate_padDigits (y m d : Nat) (rest : List Char)
    (hy : y < 10000) (hm1 : 1 ≤ m) (hm2 : m ≤ 12) (hd : d < 100) :
    parseDate (padDigits 4 y ++ ('-' :: (padDigits 2 m ++ ('-' :: (padDigits 2 d ++ rest)))))
      = some ((y, m, d), rest) := by
  have hm0 : ¬ (m = 0 ∨ 12 < m) := by omega
  simp [parseDate, getYear_padDigits _ hy, skipChar_cons, getnum_padDigits _ (by omega : m < 100),
    getnum_padDigits _ hd, hm0]

theorem parseClock_padDigits (h m s : Nat) (hh : h < 24) (hm : m < 60) (hs : s < 60) :
    parseClock (padDigits 2 h ++ (':' :: (padDigits 2 m ++ (':' :: padDigits 2 s))))
      = some ((h, m, s, 0), []) := by
  have hsec := getnum_padDigits s (by omega) [] true
  rw [List.append_nil] at hsec
  have h1 : ¬ 24 ≤ h := by omega
  have h2 : ¬ 60 ≤ m := by omega
  have h3 : ¬ 60 ≤ s := by omega
  simp [parseClock, skipChar_cons, getnum_padDigits _ (by omega : h < 100),
    getnum_padDigits _ (by omega : m < 100), hsec, h1, h2, h3, getFraction]

/-- The text `Format(time.DateTime)` writes for a valid time reads back, in that
layout, as the same date and time of day in UTC. -/
theorem parseTime_formatDateTime (t : Time) (h : t.Valid) :
    parseTime Layout.DateTime (formatDateTime t)
      = some { t with nsec := 0, offset := 0 } := by
  obtain ⟨hy, hm1, hm2, hd1, hd2, hh, hmi, hs⟩ := h
  have hdlt : t.day < 100 := by
    have : daysIn t.month t.year ≤ 31 := by
      unfold daysIn
      split <;> try decide
      split <;> decide
    omega
  have e4 : appendInt 4 t.year = padDigits 4 t.year := by simp [appendInt, hy]
  have em : appendInt 2 t.month = padDigits 2 t.month := by
    simp [appendInt, (by omega : t.month < 100)]
  have ed : appendInt 2 t.day = padDigits 2 t.day := by simp [appendInt, hdlt]
  have eh : appendInt 2 t.hour = padDigits 2 t.hour := by
    simp [appendInt, (by omega : t.hour < 100)]
  have ei : appendInt 2 t.min = padDigits 2 t.min := by
    simp [appendInt, (by omega : t.min < 100)]
  have es : appendInt 2 t.sec = padDigits 2 t.sec := by
    simp [appendInt, (by omega : t.sec < 100)]
  simp only [parseTime, formatDateTime, e4, em, ed, eh, ei, es, List.append_assoc,
    List.singleton_append]
  simp [parseChars, parseDate_padDigits _ _ _ _ hy hm1 hm2 hdlt, skipDateSep, skipSpace,
    dropWhile_blank_padDigits, parseClock_padDigits _ _ _ hh hmi hs, getLayoutZone]
  omega

/-! ## The shape of `Translate`'s result -/

theorem Position_copy (p : Option Position) :
    p.map (fun op => ({ Lat := op.Lat, Long := op.Long } : Position)) = p := by
  cases p <;> rfl

/-- The duplicate check fires: the two `Generated` pointers are one pointer. -/
theorem Translate_same_pointer (odt : Nat) (existing incoming : DeviceData) (og ng : StrPtr)
    (hog : existing.Generated = some og) (hng : incoming.Generated = some ng)
    (heq : og.addr = ng.addr) : Translate odt existing incoming = some incoming := by
  simp [Translate, hog, hng, ptrEq, heq]

/-- The duplicate check does not fire: every field of the result. -/
theorem Translate_distinct_pointers (odt : Nat) (existing incoming : DeviceData)
    (og ng : StrPtr)
    (hog : existing.Generated = some og) (hng : incoming.Generated = some ng)
    (hne : og.addr ≠ ng.addr) :
    Translate odt existing incoming = some
      { Device := incoming.Device,
        Generated :=
          if (newTime ng).Before (oldTime og) then
            some { addr := odt, val := formatDateTime (oldTime og) }
          else incoming.Generated,
        Heading := mergeField ((newTime ng).Before (oldTime og)) existing.Heading incoming.Heading,
        Position :=
          mergeField ((newTime ng).Before (oldTime og)) existing.Position incoming.Position,
        Speed := mergeField ((newTime ng).Before (oldTime og)) existing.Speed incoming.Speed } := by
  obtain ⟨dev, gen, hd, pos, sp⟩ := existing
  obtain ⟨dev', gen', hd', pos', sp'⟩ := incoming
  simp only at hog hng
  subst hog hng
  simp only [Translate, ptrEq, beq_iff_eq, hne, Bool.false_eq_true, if_false, Position_copy,
    mergeField, newTime, oldTime]
  cases (Option.getD (parseTime Layout.DateTime ng.val) Time.zero).Before
      (Option.getD (parseTime Layout.RFC3339 og.val) Time.zero) <;>
    cases hd <;> cases hd' <;> cases pos <;> cases pos' <;> cases sp <;> cases sp' <;> simp

/-! ## Claims about `Translate` -/

/-- C1. Out-of-order safety: existing parses (RFC 3339) to `T2`, incoming parses
(DateTime) to `T1` strictly before `T2`, and heading, speed and position are
present in both.  Then `Translate` returns a record whose heading, speed and
position are existing's and whose `Generated` is `T2` written in the DateTime
layout: a text that reads back, in that layout, as the date and time of day of
`T2`. -/
theorem Translate_out_of_order (odt : Nat) (existing incoming : DeviceData)
    (og ng : StrPtr) (T1 T2 : Time)
    (hco : Coherent og ng)
    (hog : existing.Generated = some og) (hng : incoming.Generated = some ng)
    (hT2 : parseTime Layout.RFC3339 og.val = some T2)
    (hT1 : parseTime Layout.DateTime ng.val = some T1)
    (hlt : T1.Before T2 = true)
    (hh : existing.Heading.isSome = true) (hh' : incoming.Heading.isSome = true)
    (hs : existing.Speed.isSome = true) (hs' : incoming.Speed.isSome = true)
    (hp : existing.Position.isSome = true) (hp' : incoming.Position.isSome = true) :
    ∃ r, Translate odt existing incoming = some r
      ∧ r.Heading = existing.Heading ∧ r.Speed = existing.Speed
      ∧ r.Position = existing.Position
      ∧ r.Generated.map StrPtr.val = some (formatDateTime T2)
      ∧ parseTime Layout.DateTime (formatDateTime T2)
          = some { T2 with nsec := 0, offset := 0 } := by
  have hne : og.addr ≠ ng.addr := by
    intro heq
    have hv : og.val = ng.val := hco heq
    rw [hv] at hT2
    exact parseTime_layouts_disjoint _ _ _ hT1 hT2
  have hb : (newTime ng).Before (oldTime og) = true := by
    simp [newTime, oldTime, hT1, hT2, hlt]
  refine ⟨_, Translate_distinct_pointers odt existing incoming og ng hog hng hne,
    ?_, ?_, ?_, ?_, parseTime_formatDateTime T2 (parseChars_valid _ _ _ hT2)⟩
  · simp [mergeField, hb, hh, hh']
  · simp [mergeField, hb, hs, hs']
  · simp [mergeField, hb, hp, hp']
  · rw [if_pos hb]
    simp [oldTime, hT2]

theorem Translate_out_of_order_witness :
    ∃ r, Translate 3
        { Device := "A", Generated := some ⟨1, "2024-01-02T00:00:00Z"⟩, Heading := some 90,
          Position := some ⟨1, 2⟩, Speed := some 5 }
        { Device := "A", Generated := some ⟨2, "2024-01-01 00:00:00"⟩, Heading := some 95,
          Position := some ⟨3, 4⟩, Speed := some 7 } = some r
      ∧ r.Heading = some 90 ∧ r.Speed = some 5 ∧ r.Position = some ⟨1, 2⟩
      ∧ r.Generated.map StrPtr.val
          = some (formatDateTime ⟨2024, 1, 2, 0, 0, 0, 0, 0⟩)
      ∧ parseTime Layout.DateTime (formatDateTime ⟨2024, 1, 2, 0, 0, 0, 0, 0⟩)
          = some ⟨2024, 1, 2, 0, 0, 0, 0, 0⟩ :=
  Translate_out_of_order 3 _ _ ⟨1, "2024-01-02T00:00:00Z"⟩ ⟨2, "2024-01-01 00:00:00"⟩
    ⟨2024, 1, 1, 0, 0, 0, 0, 0⟩ ⟨2024, 1, 2, 0, 0, 0, 0, 0⟩
    (by intro h; exact absurd h (by decide)) rfl rfl (by decide) (by decide) (by decide)
    rfl rfl rfl rfl rfl rfl

/-- C2, as stated, fails: two records that hold one `Generated` pointer, hence
one text, meet the duplicate check, and the heading incoming omits stays absent
though existing has one. -/
theorem Translate_shared_pointer_omits_heading :
    Translate 3
        { Device := "A", Generated := some ⟨1, "2024-01-01T00:00:00Z"⟩, Heading := some 90,
          Position := none, Speed := none }
        { Device := "A", Generated := some ⟨1, "2024-01-01T00:00:00Z"⟩, Heading := none,
          Position := none, Speed := some 5 }
      = some { Device := "A", Generated := some ⟨1, "2024-01-01T00:00:00Z"⟩, Heading := none,
               Position := none, Speed := some 5 } := by
  decide

/-- C2, amended. No-regression for two records whose `Generated` texts differ:
`Translate` returns a record, and each of heading, speed and position that
incoming omits has existing's value in it, whichever record is newer. -/
theorem Translate_no_regression (odt : Nat) (existing incoming : DeviceData)
    (og ng : StrPtr)
    (hco : Coherent og ng)
    (hog : existing.Generated = some og) (hng : incoming.Generated = some ng)
    (htext : og.val ≠ ng.val) :
    ∃ r, Translate odt existing incoming = some r
      ∧ (incoming.Heading = none → r.Heading = existing.Heading)
      ∧ (incoming.Speed = none → r.Speed = existing.Speed)
      ∧ (incoming.Position = none → r.Position = existing.Position) := by
  have hne : og.addr ≠ ng.addr := fun heq => htext (hco heq)
  refine ⟨_, Translate_distinct_pointers odt existing incoming og ng hog hng hne, ?_, ?_, ?_⟩
  · intro h
    cases he : existing.Heading <;> simp [mergeField, h]
  · intro h
    cases he : existing.Speed <;> simp [mergeField, h]
  · intro h
    cases he : existing.Position <;> simp [mergeField, h]

theorem Translate_no_regression_witness :
    ∃ r, Translate 3
        { Device := "A", Generated := some ⟨1, "2024-01-01T00:00:00Z"⟩, Heading := some 90,
          Position := some ⟨1, 2⟩, Speed := some 5 }
        { Device := "A", Generated := some ⟨2, "2024-01-02 00:00:00"⟩, Heading := none,
          Position := none, Speed := none } = some r
      ∧ ((none : Option Int) = none → r.Heading = some 90)
      ∧ ((none : Option Float64) = none → r.Speed = some 5)
      ∧ ((none : Option Position) = none → r.Position = some ⟨1, 2⟩) :=
  Translate_no_regression 3 _ _ ⟨1, "2024-01-01T00:00:00Z"⟩ ⟨2, "2024-01-02 00:00:00"⟩
    (by intro h; exact absurd h (by decide)) rfl rfl (by decide)

/-- C3 fails on the code. The stored text arrives once more in a string of its
own: the texts are identical, the pointers are not, so the duplicate check does
not fire.  The heading incoming lacks is taken from existing, and `Generated` is
rewritten. -/
theorem Translate_identical_text_merges (odt : Nat) :
    Translate odt
        { Device := "A", Generated := some ⟨1, "2024-01-01T00:00:00Z"⟩, Heading := some 90,
          Position := none, Speed := none }
        { Device := "A", Generated := some ⟨2, "2024-01-01T00:00:00Z"⟩, Heading := none,
          Position := none, Speed := some 5 }
      = some { Device := "A", Generated := some ⟨odt, "2024-01-01 00:00:00"⟩,
               Heading := some 90, Position := none, Speed := some 5 } := by
  rw [Translate_distinct_pointers odt _ _ ⟨1, "2024-01-01T00:00:00Z"⟩
    ⟨2, "2024-01-01T00:00:00Z"⟩ rfl rfl (by decide)]
  have hb : (newTime ⟨2, "2024-01-01T00:00:00Z"⟩).Before (oldTime ⟨1, "2024-01-01T00:00:00Z"⟩)
      = true := by decide
  have hf : formatDateTime (oldTime ⟨1, "2024-01-01T00:00:00Z"⟩) = "2024-01-01 00:00:00" := by
    decide
  simp [hb, hf, mergeField]

/-- C4, as stated, fails: a text that does not parse counts as the zero time.
When incoming's text does not parse as DateTime and existing's parses, incoming
is before existing; so it is when existing's does not parse and incoming's is in
year 0.  Both times the heading present in incoming is replaced and `Generated`
is rewritten. -/
theorem Translate_unparsed_incoming_loses :
    (parseTime Layout.DateTime "2024-01-02T00:00:00Z" = none
      ∧ Translate 3
        { Device := "A", Generated := some ⟨1, "2024-01-01T00:00:00Z"⟩, Heading := some 90,
          Position := none, Speed := none }
        { Device := "A", Generated := some ⟨2, "2024-01-02T00:00:00Z"⟩, Heading := some 95,
          Position := none, Speed := none }
      = some { Device := "A", Generated := some ⟨3, "2024-01-01 00:00:00"⟩,
               Heading := some 90, Position := none, Speed := none })
    ∧ (parseTime Layout.RFC3339 "yesterday" = none
      ∧ Translate 3
        { Device := "A", Generated := some ⟨1, "yesterday"⟩, Heading := some 90,
          Position := none, Speed := none }
        { Device := "A", Generated := some ⟨2, "0000-06-01 00:00:00"⟩, Heading := some 95,
          Position := none, Speed := none }
      = some { Device := "A", Generated := some ⟨3, "0001-01-01 00:00:00"⟩,
               Heading := some 90, Position := none, Speed := none }) := by
  decide

/-- With incoming not before existing, `Translate` keeps what incoming has. -/
theorem Translate_incoming_not_before (odt : Nat) (existing incoming : DeviceData)
    (og ng : StrPtr)
    (hog : existing.Generated = some og) (hng : incoming.Generated = some ng)
    (hnb : (newTime ng).Before (oldTime og) = false) :
    ∃ r, Translate odt existing incoming = some r
      ∧ (∀ h, incoming.Heading = some h → r.Heading = some h)
      ∧ (∀ v, incoming.Speed = some v → r.Speed = some v)
      ∧ (∀ p, incoming.Position = some p → r.Position = some p)
      ∧ r.Generated = incoming.Generated := by
  by_cases heq : og.addr = ng.addr
  · exact ⟨incoming, Translate_same_pointer odt existing incoming og ng hog hng heq,
      fun _ h => h, fun _ h => h, fun _ h => h, rfl⟩
  · refine ⟨_, Translate_distinct_pointers odt existing incoming og ng hog hng heq,
      ?_, ?_, ?_, ?_⟩
    · intro h hh
      simp [mergeField, hnb, hh]
    · intro v hv
      simp [mergeField, hnb, hv]
    · intro q hq
      simp [mergeField, hnb, hq]
    · simp [hnb]

/-- C4, amended. Existing's text does not parse as RFC 3339, and incoming's does
not parse as DateTime or parses to a time that is not before the zero time
0001-01-01 00:00:00 UTC.  Then incoming counts as not before existing: `Translate`
returns a record that keeps every heading, speed and position incoming has, and
incoming's `Generated`. -/
theorem Translate_unparsed_existing (odt : Nat) (existing incoming : DeviceData)
    (og ng : StrPtr)
    (hog : existing.Generated = some og) (hng : incoming.Generated = some ng)
    (hold : parseTime Layout.RFC3339 og.val = none)
    (hnew : parseTime Layout.DateTime ng.val = none
      ∨ ∃ t, parseTime Layout.DateTime ng.val = some t ∧ t.Before Time.zero = false) :
    ∃ r, Translate odt existing incoming = some r
      ∧ (∀ h, incoming.Heading = some h → r.Heading = some h)
      ∧ (∀ v, incoming.Speed = some v → r.Speed = some v)
      ∧ (∀ p, incoming.Position = some p → r.Position = some p)
      ∧ r.Generated = incoming.Generated := by
  apply Translate_incoming_not_before odt existing incoming og ng hog hng
  have ho : oldTime og = Time.zero := by simp [oldTime, hold]
  rw [ho]
  rcases hnew with hn | ⟨t, ht, hb⟩
  · simp only [newTime, hn, Option.getD_none]
    decide
  · simp only [newTime, ht, Option.getD_some]
    exact hb

theorem Translate_unparsed_existing_witness :
    ∃ r, Translate 3
        { Device := "A", Generated := some ⟨1, "yesterday"⟩, Heading := some 90,
          Position := none, Speed := some 5 }
        { Device := "A", Generated := some ⟨2, "2024-01-02 00:00:00"⟩, Heading := some 95,
          Position := none, Speed := none } = some r
      ∧ (∀ h, some (95 : Int) = some h → r.Heading = some h)
      ∧ (∀ v, (none : Option Float64) = some v → r.Speed = some v)
      ∧ (∀ p, (none : Option Position) = some p → r.Position = some p)
      ∧ r.Generated = some ⟨2, "2024-01-02 00:00:00"⟩ :=
  Translate_unparsed_existing 3 _ _ ⟨1, "yesterday"⟩ ⟨2, "2024-01-02 00:00:00"⟩ rfl rfl
    (by decide) (Or.inr ⟨⟨2024, 1, 2, 0, 0, 0, 0, 0⟩, by decide, by decide⟩)

/-- C5, as stated, fails: the incoming text of the scenario, an RFC 3339 text,
is a day later than the text of existing as `GetData` returns it, and differs
from it.  It does not parse in the DateTime layout, so incoming counts as the zero
time and as older: the heading it has is replaced and `Generated` is rewritten. -/
theorem Translate_later_rfc3339_incoming_loses :
    parseTime Layout.RFC3339 "2024-01-01T00:00:00Z" = some ⟨2024, 1, 1, 0, 0, 0, 0, 0⟩
    ∧ parseTime Layout.RFC3339 "2024-01-02T00:00:00Z" = some ⟨2024, 1, 2, 0, 0, 0, 0, 0⟩
    ∧ Time.Before ⟨2024, 1, 2, 0, 0, 0, 0, 0⟩ ⟨2024, 1, 1, 0, 0, 0, 0, 0⟩ = false
    ∧ Translate 3
        { Device := "A", Generated := some ⟨1, "2024-01-01T00:00:00Z"⟩, Heading := some 90,
          Position := none, Speed := some 5 }
        { Device := "A", Generated := some ⟨2, "2024-01-02T00:00:00Z"⟩, Heading := some 95,
          Position := none, Speed := none }
      = some { Device := "A", Generated := some ⟨3, "2024-01-01 00:00:00"⟩,
               Heading := some 90, Position := none, Speed := some 5 } := by
  decide

/-- C5, amended. Newer incoming wins when both texts parse: existing's parses
(RFC 3339) to `T2`, incoming's parses (DateTime) to `T1`, and `T1` is not before
`T2`.  Then `Translate` returns a record that keeps every heading, speed and
position incoming has, and incoming's `Generated`.  In the scenario of the
specification, where neither text parses in the layout applied to it, the result
has speed 5 and heading 95. -/
theorem Translate_newer_wins (odt : Nat) (existing incoming : DeviceData)
    (og ng : StrPtr) (T1 T2 : Time)
    (hog : existing.Generated = some og) (hng : incoming.Generated = some ng)
    (hT2 : parseTime Layout.RFC3339 og.val = some T2)
    (hT1 : parseTime Layout.DateTime ng.val = some T1)
    (hnb : T1.Before T2 = false) :
    (∃ r, Translate odt existing incoming = some r
      ∧ (∀ h, incoming.Heading = some h → r.Heading = some h)
      ∧ (∀ v, incoming.Speed = some v → r.Speed = some v)
      ∧ (∀ p, incoming.Position = some p → r.Position = some p)
      ∧ r.Generated = incoming.Generated)
    ∧ (parseTime Layout.RFC3339 "2024-01-01 00:00:00" = none
        ∧ parseTime Layout.DateTime "2024-01-02T00:00:00Z" = none
        ∧ ∃ r, Translate odt
          { Device := "A", Generated := some ⟨1, "2024-01-01 00:00:00"⟩, Heading := some 90,
            Position := none, Speed := some 5 }
          { Device := "A", Generated := some ⟨2, "2024-01-02T00:00:00Z"⟩, Heading := some 95,
            Position := none, Speed := none } = some r
        ∧ r.Speed = some 5 ∧ r.Heading = some 95) := by
  have hb0 : (newTime ng).Before (oldTime og) = false := by
    simp [newTime, oldTime, hT1, hT2, hnb]
  refine ⟨Translate_incoming_not_before odt existing incoming og ng hog hng hb0,
    by decide, by decide, ?_⟩
  have hb : (newTime ⟨2, "2024-01-02T00:00:00Z"⟩).Before (oldTime ⟨1, "2024-01-01 00:00:00"⟩)
      = false := by decide
  refine ⟨_, Translate_distinct_pointers odt _ _ ⟨1, "2024-01-01 00:00:00"⟩
    ⟨2, "2024-01-02T00:00:00Z"⟩ rfl rfl (by decide), ?_, ?_⟩
  · simp [mergeField]
  · simp [mergeField, hb]

theorem Translate_newer_wins_witness :
    (∃ r, Translate 3
        { Device := "A", Generated := some ⟨1, "2024-01-01T00:00:00Z"⟩, Heading := some 90,
          Position := some ⟨1, 2⟩, Speed := some 5 }
        { Device := "A", Generated := some ⟨2, "2024-01-02 00:00:00"⟩, Heading := some 95,
          Position := none, Speed := some 7 } = some r
      ∧ (∀ h, some (95 : Int) = some h → r.Heading = some h)
      ∧ (∀ v, some (7 : Float64) = some v → r.Speed = some v)
      ∧ (∀ p, (none : Option Position) = some p → r.Position = some p)
      ∧ r.Generated = some ⟨2, "2024-01-02 00:00:00"⟩)
    ∧ (parseTime Layout.RFC3339 "2024-01-01 00:00:00" = none
        ∧ parseTime Layout.DateTime "2024-01-02T00:00:00Z" = none
        ∧ ∃ r, Translate 3
          { Device := "A", Generated := some ⟨1, "2024-01-01 00:00:00"⟩, Heading := some 90,
            Position := none, Speed := some 5 }
          { Device := "A", Generated := some ⟨2, "2024-01-02T00:00:00Z"⟩, Heading := some 95,
            Position := none, Speed := none } = some r
        ∧ r.Speed = some 5 ∧ r.Heading = some 95) :=
  Translate_newer_wins 3 _ _ ⟨1, "2024-01-01T00:00:00Z"⟩ ⟨2, "2024-01-02 00:00:00"⟩
    ⟨2024, 1, 2, 0, 0, 0, 0, 0⟩ ⟨2024, 1, 1, 0, 0, 0, 0, 0⟩ rfl rfl
    (by decide) (by decide) (by decide)

/-- C6 fails on the code. A record without `Generated` on either side makes
`Translate` panic on the nil pointer: the existing record of a first run that had
no `generated`, or an incoming record without it. -/
theorem Translate_nil_generated_panics (odt : Nat) :
    Translate odt
        { Device := "A", Generated := none, Heading := none, Position := none,
          Speed := some 5 }
        { Device := "A", Generated := some ⟨2, "2024-01-02 00:00:00"⟩, Heading := some 95,
          Position := none, Speed := none } = none
    ∧ Translate odt
        { Device := "A", Generated := some ⟨1, "2024-01-01T00:00:00Z"⟩, Heading := some 90,
          Position := none, Speed := some 5 }
        { Device := "A", Generated := none, Heading := some 95, Position := none,
          Speed := none } = none :=
  ⟨rfl, rfl⟩

/-- `Translate` returns a record exactly when both records carry `Generated`. -/
theorem Translate_isSome_iff (odt : Nat) (existing incoming : DeviceData) :
    (Translate odt existing incoming).isSome = true
      ↔ existing.Generated.isSome = true ∧ incoming.Generated.isSome = true := by
  cases ho : existing.Generated with
  | none =>
    cases hn : incoming.Generated <;> simp [Translate, ho, hn]
  | some og =>
    cases hn : incoming.Generated with
    | none => simp [Translate, hn]
    | some ng =>
      by_cases heq : og.addr = ng.addr
      · simp [Translate_same_pointer odt existing incoming og ng ho hn heq]
      · simp [Translate_distinct_pointers odt existing incoming og ng ho hn heq]

/-- C9, as stated, fails: a newer incoming position (0, 0) is kept by `Translate`
in place of existing's, and the values built for the row are two valid zeros. -/
theorem Translate_keeps_zero_position :
    Translate 3
        { Device := "A", Generated := some ⟨1, "2024-01-01T00:00:00Z"⟩, Heading := none,
          Position := some ⟨1, 2⟩, Speed := none }
        { Device := "A", Generated := some ⟨2, "2024-01-02 00:00:00"⟩, Heading := none,
          Position := some ⟨0, 0⟩, Speed := none }
      = some { Device := "A", Generated := some ⟨2, "2024-01-02 00:00:00"⟩, Heading := none,
               Position := some ⟨0, 0⟩, Speed := none }
    ∧ handleNilPositionFloat64
        { Device := "A", Generated := some ⟨2, "2024-01-02 00:00:00"⟩, Heading := none,
          Position := some ⟨0, 0⟩, Speed := none }
      = ({ Float64 := 0, Valid := true }, { Float64 := 0, Valid := true }) := by
  decide

/-- C9, amended. Writing does not treat (0, 0) as absent: an incoming position
(0, 0) that is not older than existing stays the position of `Translate`'s result;
the values built for a record with position (0, 0) are two valid zeros, stored as
the numbers 0; and the null pair is built exactly for a record with no position. -/
theorem zero_position_is_written (odt : Nat) (existing incoming : DeviceData)
    (og ng : StrPtr)
    (hog : existing.Generated = some og) (hng : incoming.Generated = some ng)
    (hnb : (newTime ng).Before (oldTime og) = false)
    (hpos : incoming.Position = some ⟨0, 0⟩) :
    (∃ r, Translate odt existing incoming = some r ∧ r.Position = some ⟨0, 0⟩)
    ∧ handleNilPositionFloat64 incoming
        = ({ Float64 := 0, Valid := true }, { Float64 := 0, Valid := true })
    ∧ ((handleNilPositionFloat64 incoming).1.column = some 0
        ∧ (handleNilPositionFloat64 incoming).2.column = some 0)
    ∧ (∀ dd : DeviceData,
        ((handleNilPositionFloat64 dd).1.column = none
          ∧ (handleNilPositionFloat64 dd).2.column = none) ↔ dd.Position = none) := by
  obtain ⟨r, hr, _, _, hp, _⟩ :=
    Translate_incoming_not_before odt existing incoming og ng hog hng hnb
  refine ⟨⟨r, hr, hp _ hpos⟩, ?_, ?_, ?_⟩
  · simp [handleNilPositionFloat64, hpos]
  · simp [handleNilPositionFloat64, hpos, NullFloat64.column]
  · intro dd
    cases hd : dd.Position <;> simp [handleNilPositionFloat64, hd, NullFloat64.column]

theorem zero_position_is_written_witness :
    (∃ r, Translate 3
        { Device := "A", Generated := some ⟨1, "2024-01-01T00:00:00Z"⟩, Heading := none,
          Position := some ⟨1, 2⟩, Speed := none }
        { Device := "A", Generated := some ⟨2, "2024-01-02 00:00:00"⟩, Heading := none,
          Position := some ⟨0, 0⟩, Speed := none } = some r ∧ r.Position = some ⟨0, 0⟩)
    ∧ handleNilPositionFloat64
        { Device := "A", Generated := some ⟨2, "2024-01-02 00:00:00"⟩, Heading := none,
          Position := some ⟨0, 0⟩, Speed := none }
        = ({ Float64 := 0, Valid := true }, { Float64 := 0, Valid := true })
    ∧ ((handleNilPositionFloat64
          { Device := "A", Generated := some ⟨2, "2024-01-02 00:00:00"⟩, Heading := none,
            Position := some ⟨0, 0⟩, Speed := none }).1.column = some 0
        ∧ (handleNilPositionFloat64
          { Device := "A", Generated := some ⟨2, "2024-01-02 00:00:00"⟩, Heading := none,
            Position := some ⟨0, 0⟩, Speed := none }).2.column = some 0)
    ∧ (∀ dd : DeviceData,
        ((handleNilPositionFloat64 dd).1.column = none
          ∧ (handleNilPositionFloat64 dd).2.column = none) ↔ dd.Position = none) :=
  zero_position_is_written 3 _ _ ⟨1, "2024-01-01T00:00:00Z"⟩ ⟨2, "2024-01-02 00:00:00"⟩
    rfl rfl (by decide) rfl

/-! ## The store -/

theorem foldl_pickLatest_some (l : List Row) (b : Row) :
    ∃ r, l.foldl pickLatest (some b) = some r ∧ (r = b ∨ r ∈ l) := by
  induction l generalizing b with
  | nil => exact ⟨b, rfl, Or.inl rfl⟩
  | cons x xs ih =>
    simp only [List.foldl_cons, pickLatest]
    split
    · obtain ⟨r, hr, hm⟩ := ih x
      refine ⟨r, hr, Or.inr ?_⟩
      rcases hm with h | h
      · simp [h]
      · simp [h]
    · obtain ⟨r, hr, hm⟩ := ih b
      refine ⟨r, hr, ?_⟩
      rcases hm with h | h
      · exact Or.inl h
      · exact Or.inr (by simp [h])

/-- The query selects nothing exactly when the table has no row of the device. -/
theorem latestRow_eq_none_iff (store : Store) (device : String) :
    latestRow store device = none ↔ ∀ r ∈ store, r.device ≠ device := by
  unfold latestRow
  cases hf : store.filter (fun r => r.device = device) with
  | nil =>
    simp only [List.foldl_nil, true_iff]
    intro r hr hd
    have : r ∈ store.filter (fun r => r.device = device) := by
      simp [List.mem_filter, hr, hd]
    rw [hf] at this
    simp at this
  | cons x xs =>
    simp only [List.foldl_cons, pickLatest]
    obtain ⟨r, hr, _⟩ := foldl_pickLatest_some xs x
    rw [hr]
    simp only [false_iff, reduceCtorEq]
    intro hall
    have hx : x ∈ store.filter (fun r => r.device = device) := by simp [hf]
    have hx2 := List.mem_filter.mp hx
    exact hall x hx2.1 (by simpa using hx2.2)

/-- The row the query selects is a row of the table, of the device asked for. -/
theorem latestRow_mem (store : Store) (device : String) (row : Row)
    (h : latestRow store device = some row) : row ∈ store ∧ row.device = device := by
  unfold latestRow at h
  cases hf : store.filter (fun r => r.device = device) with
  | nil => simp [hf] at h
  | cons x xs =>
    rw [hf] at h
    simp only [List.foldl_cons, pickLatest] at h
    obtain ⟨r, hr, hm⟩ := foldl_pickLatest_some xs x
    rw [hr] at h
    have hrow : r = row := Option.some.inj h
    rw [hrow] at hm
    have hin : row ∈ store.filter (fun r => r.device = device) := by
      rw [hf]
      rcases hm with h | h
      · simp [h]
      · simp [h]
    have := List.mem_filter.mp hin
    exact ⟨this.1, by simpa using this.2⟩

/-- The row an `INSERT` the server executes appends. -/
theorem AddEvent_eq (server : Server) (store : Store) (dd : DeviceData)
    (h : Insertable server dd) :
    AddEvent server store dd
      = store ++ [rowOf (dd.Generated.bind (fun g => server.timestamp g.val)) dd] := by
  obtain ⟨hdev, hint, hts⟩ := h
  obtain ⟨dev, gen, hd, pos, sp⟩ := dd
  simp only at hdev hint hts
  have hint2 : fitsInteger (handleNilInt64 hd).column = true := by
    cases hd <;> simpa [handleNilInt64, NullInt64.column] using hint
  cases gen with
  | none =>
    cases hd <;> cases pos <;> cases sp <;>
      simp_all [AddEvent, rowOf, handleNilPositionFloat64, handleNilFloat64, handleNilInt64,
        NullFloat64.column, NullInt64.column]
  | some g =>
    obtain ⟨ts, hg⟩ := Option.isSome_iff_exists.mp (hts g rfl)
    cases hd <;> cases pos <;> cases sp <;>
      simp_all [AddEvent, rowOf, handleNilPositionFloat64, handleNilFloat64, handleNilInt64,
        NullFloat64.column, NullInt64.column]

/-- An `INSERT` adds one row or, refused, none. -/
theorem AddEvent_length (server : Server) (store : Store) (dd : DeviceData) :
    (AddEvent server store dd).length = store.length
      ∨ (AddEvent server store dd).length = store.length + 1 := by
  unfold AddEvent
  simp only
  split
  · split
    · right
      simp
    · split
      · left
        rfl
      · right
        simp
  · left
    rfl

/-- `UpdateState` keeps the number of rows, and the device and timestamp of each. -/
theorem UpdateState_keeps_key (store : Store) (dd : DeviceData) :
    (UpdateState store dd).length = store.length
      ∧ (UpdateState store dd).map (fun r => (r.device, r.generatedts))
          = store.map (fun r => (r.device, r.generatedts)) := by
  unfold UpdateState
  simp only
  split
  · constructor
    · simp
    · simp only [List.map_map]
      apply List.map_congr_left
      intro r _
      simp only [Function.comp]
      split <;> rfl
  · exact ⟨rfl, rfl⟩

/-- An `UPDATE` the server executes writes the record's four values into every row
of its device and leaves the rows of other devices as they are. -/
theorem UpdateState_rows (store : Store) (dd : DeviceData)
    (hdev : storableText dd.Device = true) (hint : fitsInteger dd.Heading = true) :
    UpdateState store dd = store.map (fun r =>
      if r.device = dd.Device then
        { r with speed := dd.Speed, heading := dd.Heading,
                 latitude := dd.Position.map (fun po => po.Lat),
                 longitude := dd.Position.map (fun po => po.Long) }
      else r) := by
  obtain ⟨dev, gen, hd, pos, sp⟩ := dd
  simp only at hdev hint
  cases hd <;> cases pos <;> cases sp <;>
    simp_all [UpdateState, handleNilPositionFloat64, handleNilFloat64, handleNilInt64,
      NullFloat64.column, NullInt64.column]

/-- A run for a device the table does not know, with a plain device text and an
`INSERT` the server executes: one row is appended, built from the incoming record;
nothing is merged or updated; the record handed back by `GetData` is the incoming
record, printed with `Generated` cleared. -/
theorem main_new_device (server : Server) (scanAddr odt : Nat) (store : Store)
    (incomingData : DeviceData) (hplain : plainText incomingData.Device = true)
    (hnone : ∀ r ∈ store, r.device ≠ incomingData.Device)
    (hins : Insertable server incomingData) :
    GetData server scanAddr store incomingData
        = (incomingData, true, store ++ [rowOf
            (incomingData.Generated.bind (fun g => server.timestamp g.val)) incomingData])
      ∧ main server scanAddr odt store incomingData
        = Outcome.printed (store ++ [rowOf
            (incomingData.Generated.bind (fun g => server.timestamp g.val)) incomingData])
            { incomingData with Generated := none } := by
  have hq := (latestRow_eq_none_iff store incomingData.Device).mpr hnone
  constructor
  · simp [GetData, QueryRow, hplain, hq, AddEvent_eq server store incomingData hins]
  · simp [main, GetData, QueryRow, hplain, hq, AddEvent_eq server store incomingData hins]

/-- A run whose query returns a row, both records carrying `Generated`: no row is
added; the record `Translate` returns is handed to `UpdateState` and printed with
`Generated` cleared. -/
theorem main_known_device (server : Server) (scanAddr odt : Nat) (store after : Store)
    (incomingData : DeviceData) (row : Row)
    (hrow : QueryRow server store incomingData.Device = (QueryOutcome.row row, after))
    (hts : row.generatedts.isSome = true) (hgen : incomingData.Generated.isSome = true) :
    ∃ translatedData,
      Translate odt (GetData server scanAddr store incomingData).1 incomingData
          = some translatedData
      ∧ translatedData.Device = incomingData.Device
      ∧ main server scanAddr odt store incomingData
          = Outcome.printed (UpdateState after translatedData)
              { translatedData with Generated := none } := by
  have hex : (GetData server scanAddr store incomingData).1.Generated.isSome = true := by
    simp only [GetData, hrow]
    split <;> simp [hts]
  have hsome := (Translate_isSome_iff odt
    (GetData server scanAddr store incomingData).1 incomingData).mpr ⟨hex, hgen⟩
  obtain ⟨t, ht⟩ := Option.isSome_iff_exists.mp hsome
  have hflag : (GetData server scanAddr store incomingData).2.1 = false := by
    simp only [GetData, hrow]
    split <;> rfl
  have hstore : (GetData server scanAddr store incomingData).2.2 = after := by
    simp only [GetData, hrow]
    split <;> rfl
  refine ⟨t, ht, ?_, ?_⟩
  · obtain ⟨og, ho⟩ := Option.isSome_iff_exists.mp hex
    obtain ⟨ng, hn⟩ := Option.isSome_iff_exists.mp hgen
    by_cases heq : og.addr = ng.addr
    · rw [Translate_same_pointer odt _ _ og ng ho hn heq] at ht
      cases ht
      rfl
    · rw [Translate_distinct_pointers odt _ _ og ng ho hn heq] at ht
      cases ht
      rfl
  · unfold main
    rcases hg : GetData server scanAddr store incomingData with ⟨e, ne, st⟩
    rw [hg] at ht hflag hstore
    simp only at ht hflag hstore
    subst hflag hstore
    simp [ht]

/-- C7 fails on the code. A first run for device A without `generated` appends
a row whose timestamp is NULL and prints the record.  The next run for A finds
that row, so nothing is inserted; `Translate` panics on the nil `Generated` of the
existing record, and the run ends with no update written and nothing printed. -/
theorem main_second_run_panics (server : Server) (scanAddr odt : Nat) :
    main server scanAddr odt []
        { Device := "A", Generated := none, Heading := none, Position := none,
          Speed := some 5 }
      = Outcome.printed
          [{ device := "A", generatedts := none, speed := some 5, heading := none,
             latitude := none, longitude := none }]
          { Device := "A", Generated := none, Heading := none, Position := none,
            Speed := some 5 }
    ∧ main server scanAddr odt
        [{ device := "A", generatedts := none, speed := some 5, heading := none,
           latitude := none, longitude := none }]
        { Device := "A", Generated := some ⟨1, "2024-01-02 00:00:00"⟩, Heading := some 95,
          Position := none, Speed := none }
      = Outcome.panicked
          [{ device := "A", generatedts := none, speed := some 5, heading := none,
             latitude := none, longitude := none }] := by
  constructor <;> rfl

/-- C8, as stated, fails: a row whose coordinates are NULL, as `AddEvent` writes
it for a record with no position, is read back with no position although its
stored latitude and longitude are not 0. -/
theorem GetData_null_pair_reads_absent :
    GetData
        { timestamp := fun _ => none, scanText := fun _ => "",
          pasted := fun _ store => (QueryOutcome.failed, store) } 10
        [{ device := "A", generatedts := none, speed := some 5, heading := none,
           latitude := none, longitude := none }]
        { Device := "A", Generated := none, Heading := none, Position := none, Speed := none }
      = ({ Device := "A", Generated := none, Heading := none, Position := none,
           Speed := some 5 }, false,
         [{ device := "A", generatedts := none, speed := some 5, heading := none,
            latitude := none, longitude := none }])
    ∧ (none : Option Float64) ≠ some 0 := by
  decide

/-- C8, amended. For the row `GetData` finds: when its latitude and longitude are
not NULL, the record returned has no position exactly when both are 0, and has
the stored pair as its position otherwise, so also when only one of the two is
0; when its latitude is NULL the record returned has no position. -/
theorem GetData_sentinel (server : Server) (scanAddr : Nat) (store after : Store)
    (deviceData : DeviceData) (row : Row)
    (hrow : QueryRow server store deviceData.Device = (QueryOutcome.row row, after)) :
    (GetData server scanAddr store deviceData).2.1 = false
    ∧ (∀ lat long, row.latitude = some lat → row.longitude = some long →
        ((GetData server scanAddr store deviceData).1.Position = none
            ↔ lat = 0 ∧ long = 0)
        ∧ (¬ (lat = 0 ∧ long = 0) →
            (GetData server scanAddr store deviceData).1.Position
              = some { Lat := lat, Long := long }))
    ∧ (row.latitude = none →
        (GetData server scanAddr store deviceData).1.Position = none) := by
  refine ⟨?_, ?_, ?_⟩
  · simp only [GetData, hrow]
    split <;> rfl
  · intro lat long hlat hlong
    simp only [GetData, hrow, scanLatLong, hlat, hlong]
    by_cases h : lat = 0 ∧ long = 0
    · simp [h]
    · simp [h]
  · intro hlat
    simp [GetData, hrow, scanLatLong, hlat]

theorem GetData_sentinel_witness :
    (GetData
        { timestamp := fun _ => none, scanText := fun _ => "",
          pasted := fun _ store => (QueryOutcome.failed, store) } 10
        [{ device := "A", generatedts := none, speed := none, heading := none,
           latitude := some 0, longitude := some 7 }]
        { Device := "A", Generated := none, Heading := none, Position := none,
          Speed := none }).2.1 = false
    ∧ (∀ lat long, some (0 : Float64) = some lat → some (7 : Float64) = some long →
        ((GetData
            { timestamp := fun _ => none, scanText := fun _ => "",
              pasted := fun _ store => (QueryOutcome.failed, store) } 10
            [{ device := "A", generatedts := none, speed := none, heading := none,
               latitude := some 0, longitude := some 7 }]
            { Device := "A", Generated := none, Heading := none, Position := none,
              Speed := none }).1.Position = none
            ↔ lat = 0 ∧ long = 0)
        ∧ (¬ (lat = 0 ∧ long = 0) →
            (GetData
              { timestamp := fun _ => none, scanText := fun _ => "",
                pasted := fun _ store => (QueryOutcome.failed, store) } 10
              [{ device := "A", generatedts := none, speed := none, heading := none,
                 latitude := some 0, longitude := some 7 }]
              { Device := "A", Generated := none, Heading := none, Position := none,
                Speed := none }).1.Position
              = some { Lat := lat, Long := long }))
    ∧ ((some (0 : Float64)) = none →
        (GetData
            { timestamp := fun _ => none, scanText := fun _ => "",
              pasted := fun _ store => (QueryOutcome.failed, store) } 10
            [{ device := "A", generatedts := none, speed := none, heading := none,
               latitude := some 0, longitude := some 7 }]
            { Device := "A", Generated := none, Heading := none, Position := none,
              Speed := none }).1.Position = none) :=
  GetData_sentinel
    { timestamp := fun _ => none, scanText := fun _ => "",
      pasted := fun _ store => (QueryOutcome.failed, store) } 10
    [{ device := "A", generatedts := none, speed := none, heading := none,
       latitude := some 0, longitude := some 7 }]
    [{ device := "A", generatedts := none, speed := none, heading := none,
       latitude := some 0, longitude := some 7 }]
    { Device := "A", Generated := none, Heading := none, Position := none, Speed := none }
    { device := "A", generatedts := none, speed := none, heading := none,
      latitude := some 0, longitude := some 7 }
    (by decide)

/-! ## `Position.UnmarshalJSON` -/

/-- C10 fails on the code. A position object whose `lat` is a string and whose
`long` is a number, or the other way round, makes `UnmarshalJSON` panic: the type
of `lat` alone picks the branch, and `long` is asserted to have that type too. -/
theorem UnmarshalJSON_mixed_panics (ParseFloat : String → Float64 × Bool) :
    UnmarshalJSON ParseFloat (some { Lat := JsonAny.string "1.5", Long := JsonAny.number 2 })
      = Decoded.panic
    ∧ UnmarshalJSON ParseFloat (some { Lat := JsonAny.number 1, Long := JsonAny.string "2.5" })
      = Decoded.panic :=
  ⟨rfl, rfl⟩

/-- Two coordinates in one encoding decode: two numbers to themselves, two
strings to what `ParseFloat` returns for them. -/
theorem UnmarshalJSON_same_encoding (ParseFloat : String → Float64 × Bool)
    (a b : Float64) (sa sb : String) :
    UnmarshalJSON ParseFloat (some { Lat := JsonAny.number a, Long := JsonAny.number b })
      = Decoded.ok { Lat := a, Long := b }
    ∧ UnmarshalJSON ParseFloat (some { Lat := JsonAny.string sa, Long := JsonAny.string sb })
      = Decoded.ok { Lat := (ParseFloat sa).1, Long := (ParseFloat sb).1 } :=
  ⟨rfl, rfl⟩

end Models
